import Mathlib

/-!
Verification of the Orion-GNC mission sequencing engine.

Shallow embedding of the mission sequencer worker
(src/mission-sequencer/worker.py) and of the command dispatch arm of the
GNC flight-control service (src/gnc-flight-control/main.py), as pure
trace-producing functions.  Redis side effects (key writes, channel
publishes), command forwarding and sleeps are modelled as an explicit
event trace; the abort pub/sub channel is modelled as an oracle giving,
for each step index, whether the non-blocking get_message call at that
step returns an abort message addressed to the current mission.

Components the tests reference but that are missing from src
(the MissionSequencer class with its process_missions consumer loop and
its WAIT_UNTIL_APOAPSIS dispatcher) are modelled from the spec; those
definitions carry a doc comment starting with Modelled from the spec.
-/

/-- One command of a mission plan, as worker.py reads it: the worker
only ever accesses the keys "command" (line 53) and "delay_ms"
(line 59, via cmd.get with default 1000).  A missing "command" key is
represented as none; accessing it raises a KeyError in the source. -/
structure MissionCommand where
  command : Option String
  delay_ms : Option Nat
  deriving DecidableEq, Repr

/-- A mission plan as consumed by worker.py execute_mission: the keys
mission_id (line 38) and flight_plan (line 46).  The spec calls the
command list "sequence"; worker.py reads it from the key "flight_plan". -/
structure MissionPlan where
  mission_id : String
  flight_plan : List MissionCommand
  deriving DecidableEq, Repr

/-- Observable effects of one mission execution, in order:
redis set of a status key (worker.py line 29), publish of a status
payload on a channel (line 30), publish of a command on the
gnc_commands channel (line 56), a sleep (line 60, duration in
milliseconds), and the final unsubscribe from the abort channel
(lines 70-71). -/
inductive Ev where
  | storeSet (key status details : String)
  | chanPublish (channel mission_id status details : String)
  | fwd (c : MissionCommand)
  | sleepMs (n : Nat)
  | unsub
  deriving DecidableEq, Repr

/-- Embedding of update_mission_status (worker.py lines 23-31): one
redis set of the key mission:(id):status with payload contents
(status, details), immediately followed by one publish of
(mission_id, status, details) on the single channel mission_status. -/
def update_mission_status (mission_id status details : String) : List Ev :=
  [Ev.storeSet ("mission:" ++ mission_id ++ ":status") status details,
   Ev.chanPublish "mission_status" mission_id status details]

/-- Result of the Celery task body: normal return with COMPLETED or
ABORTED, or an exception re-raised out of the task (worker.py line 68). -/
inductive ExecResult where
  | completed
  | aborted
  | raised (msg : String)
  deriving DecidableEq, Repr

/-- Text of the Python exception str(KeyError("command")) raised at
worker.py line 53 when a command dict has no "command" key. -/
def keyErrorCommand : String := "\x27command\x27"

/-- The f-string of worker.py line 53: Executing command (i+1)/(n): (name). -/
def execMsg (i n : Nat) (name : String) : String :=
  "Executing command " ++ toString (i + 1) ++ "/" ++ toString n ++ ": " ++ name

/-- The per-step loop of execute_mission (worker.py lines 46-60), over
the remaining commands, with i the zero-based index of the next command
and n the total length of the flight plan.  Each iteration: the
non-blocking abort check (lines 48-51), the IN_PROGRESS progress status
(line 53, which raises KeyError if the command key is absent, caught at
lines 65-68 as FAILED followed by re-raise), the forward to the
gnc_commands channel (line 56), and the inter-command sleep (lines
59-60).  After the last command, COMPLETED (line 62). -/
def exec_steps (mission_id : String) (n : Nat) (abortAt : Nat → Bool) :
    Nat → List MissionCommand → List Ev × ExecResult
  | _, [] =>
      (update_mission_status mission_id "COMPLETED"
         "All mission commands executed successfully.",
       ExecResult.completed)
  | i, c :: rest =>
      if abortAt i then
        (update_mission_status mission_id "ABORTED" "Mission aborted by operator.",
         ExecResult.aborted)
      else
        match c.command with
        | none =>
            (update_mission_status mission_id "FAILED"
               ("An error occurred: " ++ keyErrorCommand),
             ExecResult.raised keyErrorCommand)
        | some name =>
            (update_mission_status mission_id "IN_PROGRESS" (execMsg i n name)
               ++ [Ev.fwd c, Ev.sleepMs (c.delay_ms.getD 1000)]
               ++ (exec_steps mission_id n abortAt (i + 1) rest).1,
             (exec_steps mission_id n abortAt (i + 1) rest).2)

/-- Embedding of execute_mission (worker.py lines 33-71): the initial
IN_PROGRESS status (line 39), the per-step loop, and the finally block
releasing the abort subscription on every exit path (lines 69-71). -/
def execute_mission (p : MissionPlan) (abortAt : Nat → Bool) : List Ev × ExecResult :=
  (update_mission_status p.mission_id "IN_PROGRESS" "Starting mission execution."
     ++ (exec_steps p.mission_id p.flight_plan.length abortAt 0 p.flight_plan).1
     ++ [Ev.unsub],
   (exec_steps p.mission_id p.flight_plan.length abortAt 0 p.flight_plan).2)

/-- Status snapshots written to the store, in order, as (status, details). -/
def storeStatuses : List Ev → List (String × String) :=
  List.filterMap fun e => match e with
    | Ev.storeSet _ st d => some (st, d)
    | _ => none

/-- Status payloads published on status channels, in order, as (status, details). -/
def pubStatuses : List Ev → List (String × String) :=
  List.filterMap fun e => match e with
    | Ev.chanPublish _ _ st d => some (st, d)
    | _ => none

/-- Commands forwarded downstream on the gnc_commands channel, in order. -/
def forwarded : List Ev → List MissionCommand :=
  List.filterMap fun e => match e with
    | Ev.fwd c => some c
    | _ => none

/-- Channels on which any publish happened, in order. -/
def channelsOf : List Ev → List String :=
  List.filterMap fun e => match e with
    | Ev.chanPublish ch _ _ _ => some ch
    | _ => none

/-- Terminal statuses per the spec state machine. -/
def isTerminal (s : String) : Bool :=
  s == "COMPLETED" || s == "FAILED" || s == "ABORTED"

/-- Embedding of the dispatch arm selection in execute_command of
src/gnc-flight-control/main.py (lines 202-233): the recognized command
tags act on the vessel (kRPC side effects elided, they feed nothing
back to the sequencer); any other tag falls into the else arm of line
228, which only logs a warning and returns normally, signalling no
failure to anyone. -/
inductive GncOutcome where
  | acted (command : String)
  | warnedUnknown (command : String)
  deriving DecidableEq, Repr

def gnc_execute_command (command : String) : GncOutcome :=
  if command == "SET_THROTTLE" then GncOutcome.acted command
  else if command == "ACTIVATE_NEXT_STAGE" then GncOutcome.acted command
  else if command == "SET_SAS" then GncOutcome.acted command
  else if command == "SET_RCS" then GncOutcome.acted command
  else if command == "SET_AUTOPILOT_PITCH_AND_HEADING" then GncOutcome.acted command
  else GncOutcome.warnedUnknown command

/-- C2: evaluation of the code at the failing input.  A mission whose
sequence holds the single unrecognized command INVALID_COMMAND is not
failed by the code: worker.py forwards the command downstream and
records COMPLETED, and the GNC dispatcher treats the tag as a logged
warning with no failure signal.  No FAILED status and no text
containing Invalid command is ever produced, contradicting the claim
and the tests test_mission_failure_invalid_command and
test_mission_with_invalid_command. -/
theorem invalid_command_completes_not_failed :
    storeStatuses (execute_mission
        (MissionPlan.mk "test-invalid-command-123"
          [MissionCommand.mk (some "INVALID_COMMAND") none]) (fun _ => false)).1
      = [("IN_PROGRESS", "Starting mission execution."),
         ("IN_PROGRESS", "Executing command 1/1: INVALID_COMMAND"),
         ("COMPLETED", "All mission commands executed successfully.")] ∧
    (execute_mission
        (MissionPlan.mk "test-invalid-command-123"
          [MissionCommand.mk (some "INVALID_COMMAND") none]) (fun _ => false)).2
      = ExecResult.completed ∧
    forwarded (execute_mission
        (MissionPlan.mk "test-invalid-command-123"
          [MissionCommand.mk (some "INVALID_COMMAND") none]) (fun _ => false)).1
      = [MissionCommand.mk (some "INVALID_COMMAND") none] ∧
    gnc_execute_command "INVALID_COMMAND" = GncOutcome.warnedUnknown "INVALID_COMMAND" :=
  ⟨rfl, rfl, rfl, rfl⟩

/-- C3: evaluation of the code at the failing input.  worker.py has no
stop-flag check at all between steps (the Celery task cannot observe a
service shutdown), so the only termination signal checked is the abort
channel; when an abort message for the mission is pending at step 0 the
code publishes ABORTED whose details is the plain string
"Mission aborted by operator." rather than a structured payload with a
reason field, and processes no command. -/
theorem abort_details_plain_string_no_stop_flag :
    storeStatuses (execute_mission
        (MissionPlan.mk "test-restart-123" [MissionCommand.mk (some "WAIT") none])
        (fun i => i == 0)).1
      = [("IN_PROGRESS", "Starting mission execution."),
         ("ABORTED", "Mission aborted by operator.")] ∧
    (execute_mission
        (MissionPlan.mk "test-restart-123" [MissionCommand.mk (some "WAIT") none])
        (fun i => i == 0)).2
      = ExecResult.aborted ∧
    forwarded (execute_mission
        (MissionPlan.mk "test-restart-123" [MissionCommand.mk (some "WAIT") none])
        (fun i => i == 0)).1
      = [] :=
  ⟨rfl, rfl, rfl⟩

/-- C5: evaluation of the code at the failing input.  For the one-command
mission of test_mission_status_transitions, the status published before
dispatching the command at index 0 is IN_PROGRESS with the flat message
"Executing command 1/1: WAIT" (1-based ordinal inside a string); no
status named EXECUTING_COMMAND and no structured sequence_index detail
is ever produced. -/
theorem no_executing_command_status_published :
    storeStatuses (execute_mission
        (MissionPlan.mk "test-status-123" [MissionCommand.mk (some "WAIT") none])
        (fun _ => false)).1
      = [("IN_PROGRESS", "Starting mission execution."),
         ("IN_PROGRESS", "Executing command 1/1: WAIT"),
         ("COMPLETED", "All mission commands executed successfully.")] ∧
    (storeStatuses (execute_mission
        (MissionPlan.mk "test-status-123" [MissionCommand.mk (some "WAIT") none])
        (fun _ => false)).1).all (fun x => !(x.1 == "EXECUTING_COMMAND")) = true :=
  ⟨rfl, rfl⟩

/-- C6: evaluation of the code at the failing input.  One call of
update_mission_status writes the snapshot key and publishes the same
payload, but the only channel ever published to is the single global
channel mission_status; no per-mission channel mission_status:m6 (or
any other dedicated channel) receives the payload. -/
theorem update_status_only_global_channel :
    update_mission_status "m6" "IN_PROGRESS" "Starting mission execution."
      = [Ev.storeSet "mission:m6:status" "IN_PROGRESS" "Starting mission execution.",
         Ev.chanPublish "mission_status" "m6" "IN_PROGRESS" "Starting mission execution."] ∧
    channelsOf (update_mission_status "m6" "IN_PROGRESS" "Starting mission execution.")
      = ["mission_status"] :=
  ⟨rfl, rfl⟩

/-- C8 counterexample: at the concrete mission whose single command dict
has no command key, the execution error is not swallowed by the engine:
execute_mission re-raises it (worker.py line 68), so the result of the
task body is the propagated exception, refuting the claim that no
mission-level exception propagates out. -/
theorem command_failure_reraises_counterexample :
    (execute_mission (MissionPlan.mk "m8x" [MissionCommand.mk none none])
        (fun _ => false)).2
      = ExecResult.raised keyErrorCommand ∧
    storeStatuses (execute_mission (MissionPlan.mk "m8x" [MissionCommand.mk none none])
        (fun _ => false)).1
      = [("IN_PROGRESS", "Starting mission execution."),
         ("FAILED", "An error occurred: " ++ keyErrorCommand)] :=
  ⟨rfl, rfl⟩

@[simp] theorem storeStatuses_nil : storeStatuses [] = [] := rfl

@[simp] theorem storeStatuses_cons_store (k st d : String) (l : List Ev) :
    storeStatuses (Ev.storeSet k st d :: l) = (st, d) :: storeStatuses l := rfl

@[simp] theorem storeStatuses_cons_pub (ch m st d : String) (l : List Ev) :
    storeStatuses (Ev.chanPublish ch m st d :: l) = storeStatuses l := rfl

@[simp] theorem storeStatuses_cons_fwd (c : MissionCommand) (l : List Ev) :
    storeStatuses (Ev.fwd c :: l) = storeStatuses l := rfl

@[simp] theorem storeStatuses_cons_sleep (n : Nat) (l : List Ev) :
    storeStatuses (Ev.sleepMs n :: l) = storeStatuses l := rfl

@[simp] theorem storeStatuses_cons_unsub (l : List Ev) :
    storeStatuses (Ev.unsub :: l) = storeStatuses l := rfl

@[simp] theorem storeStatuses_append (l1 l2 : List Ev) :
    storeStatuses (l1 ++ l2) = storeStatuses l1 ++ storeStatuses l2 :=
  List.filterMap_append l1 l2 _

@[simp] theorem pubStatuses_nil : pubStatuses [] = [] := rfl

@[simp] theorem pubStatuses_cons_store (k st d : String) (l : List Ev) :
    pubStatuses (Ev.storeSet k st d :: l) = pubStatuses l := rfl

@[simp] theorem pubStatuses_cons_pub (ch m st d : String) (l : List Ev) :
    pubStatuses (Ev.chanPublish ch m st d :: l) = (st, d) :: pubStatuses l := rfl

@[simp] theorem pubStatuses_cons_fwd (c : MissionCommand) (l : List Ev) :
    pubStatuses (Ev.fwd c :: l) = pubStatuses l := rfl

@[simp] theorem pubStatuses_cons_sleep (n : Nat) (l : List Ev) :
    pubStatuses (Ev.sleepMs n :: l) = pubStatuses l := rfl

@[simp] theorem pubStatuses_cons_unsub (l : List Ev) :
    pubStatuses (Ev.unsub :: l) = pubStatuses l := rfl

@[simp] theorem pubStatuses_append (l1 l2 : List Ev) :
    pubStatuses (l1 ++ l2) = pubStatuses l1 ++ pubStatuses l2 :=
  List.filterMap_append l1 l2 _

@[simp] theorem forwarded_nil : forwarded [] = [] := rfl

@[simp] theorem forwarded_cons_store (k st d : String) (l : List Ev) :
    forwarded (Ev.storeSet k st d :: l) = forwarded l := rfl

@[simp] theorem forwarded_cons_pub (ch m st d : String) (l : List Ev) :
    forwarded (Ev.chanPublish ch m st d :: l) = forwarded l := rfl

@[simp] theorem forwarded_cons_fwd (c : MissionCommand) (l : List Ev) :
    forwarded (Ev.fwd c :: l) = c :: forwarded l := rfl

@[simp] theorem forwarded_cons_sleep (n : Nat) (l : List Ev) :
    forwarded (Ev.sleepMs n :: l) = forwarded l := rfl

@[simp] theorem forwarded_cons_unsub (l : List Ev) :
    forwarded (Ev.unsub :: l) = forwarded l := rfl

@[simp] theorem forwarded_append (l1 l2 : List Ev) :
    forwarded (l1 ++ l2) = forwarded l1 ++ forwarded l2 :=
  List.filterMap_append l1 l2 _

theorem exec_steps_status_shape (mission_id : String) (n : Nat) (abortAt : Nat → Bool) :
    ∀ (cmds : List MissionCommand) (i : Nat),
      ∃ pre t,
        storeStatuses (exec_steps mission_id n abortAt i cmds).1 = pre ++ [t] ∧
        isTerminal t.1 = true ∧
        pre.all (fun x => !isTerminal x.1) = true ∧
        pubStatuses (exec_steps mission_id n abortAt i cmds).1 = pre ++ [t] := by
  intro cmds
  induction cmds with
  | nil =>
      intro i
      exact ⟨[], ("COMPLETED", "All mission commands executed successfully."),
        rfl, rfl, rfl, rfl⟩
  | cons c rest ih =>
      intro i
      cases hab : abortAt i with
      | true =>
          refine ⟨[], ("ABORTED", "Mission aborted by operator."), ?_, rfl, rfl, ?_⟩ <;>
            simp [exec_steps, hab, update_mission_status]
      | false =>
          cases hc : c.command with
          | none =>
              refine ⟨[], ("FAILED", "An error occurred: " ++ keyErrorCommand),
                ?_, rfl, rfl, ?_⟩ <;>
                simp [exec_steps, hab, hc, update_mission_status]
          | some name =>
              obtain ⟨pre, t, h1, h2, h3, h4⟩ := ih (i + 1)
              have hnt : isTerminal "IN_PROGRESS" = false := rfl
              refine ⟨("IN_PROGRESS", execMsg i n name) :: pre, t, ?_, h2, ?_, ?_⟩
              · simp [exec_steps, hab, hc, update_mission_status, h1]
              · simp [List.all_cons, h3, hnt]
              · simp [exec_steps, hab, hc, update_mission_status, h4]

/-- C7: for every mission plan and every abort oracle, the runner records
exactly one terminal status (COMPLETED, FAILED or ABORTED), it is the
last store write of the execution, every earlier write is non-terminal,
and the channel publications are the identical sequence — so once a
terminal status is recorded for the mission id, the runner performs no
further status write or publication. -/
theorem terminal_status_is_final_write :
    ∀ (p : MissionPlan) (abortAt : Nat → Bool),
      ∃ pre t,
        storeStatuses (execute_mission p abortAt).1 = pre ++ [t] ∧
        isTerminal t.1 = true ∧
        pre.all (fun x => !isTerminal x.1) = true ∧
        pubStatuses (execute_mission p abortAt).1 = pre ++ [t] := by
  intro p abortAt
  obtain ⟨pre, t, h1, h2, h3, h4⟩ :=
    exec_steps_status_shape p.mission_id p.flight_plan.length abortAt p.flight_plan 0
  have hnt : isTerminal "IN_PROGRESS" = false := rfl
  refine ⟨("IN_PROGRESS", "Starting mission execution.") :: pre, t, ?_, h2, ?_, ?_⟩
  · simp [execute_mission, update_mission_status, h1]
  · simp [List.all_cons, h3, hnt]
  · simp [execute_mission, update_mission_status, h4]

theorem exec_steps_clean (mission_id : String) (n : Nat) (abortAt : Nat → Bool)
    (hab : ∀ j, abortAt j = false) :
    ∀ (cmds : List MissionCommand) (i : Nat),
      (∀ c ∈ cmds, (c.command).isSome = true) →
      forwarded (exec_steps mission_id n abortAt i cmds).1 = cmds ∧
      (exec_steps mission_id n abortAt i cmds).2 = ExecResult.completed ∧
      ∃ pre, storeStatuses (exec_steps mission_id n abortAt i cmds).1
        = pre ++ [("COMPLETED", "All mission commands executed successfully.")] := by
  intro cmds
  induction cmds with
  | nil =>
      intro i _
      exact ⟨rfl, rfl, [], rfl⟩
  | cons c rest ih =>
      intro i hc
      obtain ⟨name, hname⟩ :=
        Option.isSome_iff_exists.mp (hc c (List.mem_cons_self c rest))
      obtain ⟨ihf, ihr, pre, ihs⟩ :=
        ih (i + 1) (fun x hx => hc x (List.mem_cons_of_mem c hx))
      refine ⟨?_, ?_, ("IN_PROGRESS", execMsg i n name) :: pre, ?_⟩ <;>
        simp [exec_steps, hab i, hname, update_mission_status, ihf, ihr, ihs]

/-- C1: for every mission plan and every run in which no abort message is
pending at any step and every command dict has its command key (no
command failure), execute_mission forwards exactly the commands of the
plan, downstream, in the original order (hence exactly N of them), the
task returns normally, and the final status written is COMPLETED with
the message "All mission commands executed successfully.".  The empty
sequence is the special case flight_plan = [], where the forwarded list
is empty and the COMPLETED write follows immediately. -/
theorem clean_run_forwards_all_and_completes (p : MissionPlan) (abortAt : Nat → Bool)
    (hab : ∀ j, abortAt j = false)
    (hc : ∀ c ∈ p.flight_plan, (c.command).isSome = true) :
    forwarded (execute_mission p abortAt).1 = p.flight_plan ∧
    (forwarded (execute_mission p abortAt).1).length = p.flight_plan.length ∧
    (execute_mission p abortAt).2 = ExecResult.completed ∧
    ∃ pre, storeStatuses (execute_mission p abortAt).1
      = pre ++ [("COMPLETED", "All mission commands executed successfully.")] := by
  obtain ⟨hf, hr, pre, hs⟩ :=
    exec_steps_clean p.mission_id p.flight_plan.length abortAt hab p.flight_plan 0 hc
  refine ⟨?_, ?_, ?_, ("IN_PROGRESS", "Starting mission execution.") :: pre, ?_⟩ <;>
    simp [execute_mission, update_mission_status, hf, hr, hs]

/-- C1 witness: a concrete two-command plan and the concrete empty plan,
both with no abort pending, run through the theorem. -/
theorem clean_run_forwards_all_and_completes_witness :
    forwarded (execute_mission (MissionPlan.mk "m1"
        [MissionCommand.mk (some "SET_THROTTLE") (some 500),
         MissionCommand.mk (some "ACTIVATE_NEXT_STAGE") none]) (fun _ => false)).1
      = [MissionCommand.mk (some "SET_THROTTLE") (some 500),
         MissionCommand.mk (some "ACTIVATE_NEXT_STAGE") none] ∧
    (execute_mission (MissionPlan.mk "m1"
        [MissionCommand.mk (some "SET_THROTTLE") (some 500),
         MissionCommand.mk (some "ACTIVATE_NEXT_STAGE") none]) (fun _ => false)).2
      = ExecResult.completed ∧
    forwarded (execute_mission (MissionPlan.mk "m0" []) (fun _ => false)).1 = [] ∧
    (execute_mission (MissionPlan.mk "m0" []) (fun _ => false)).2
      = ExecResult.completed := by
  have h2 := clean_run_forwards_all_and_completes (MissionPlan.mk "m1"
    [MissionCommand.mk (some "SET_THROTTLE") (some 500),
     MissionCommand.mk (some "ACTIVATE_NEXT_STAGE") none]) (fun _ => false)
    (fun _ => rfl) (by decide)
  have h0 := clean_run_forwards_all_and_completes (MissionPlan.mk "m0" [])
    (fun _ => false) (fun _ => rfl) (by decide)
  exact ⟨h2.1, h2.2.2.1, h0.1, h0.2.2.1⟩

theorem exec_steps_raise (mission_id : String) (n : Nat) (abortAt : Nat → Bool)
    (hab : ∀ j, abortAt j = false) (c : MissionCommand) (hc : c.command = none)
    (post : List MissionCommand) :
    ∀ (pre : List MissionCommand) (i : Nat),
      (∀ x ∈ pre, (x.command).isSome = true) →
      forwarded (exec_steps mission_id n abortAt i (pre ++ c :: post)).1 = pre ∧
      (exec_steps mission_id n abortAt i (pre ++ c :: post)).2
        = ExecResult.raised keyErrorCommand ∧
      ∃ preS, storeStatuses (exec_steps mission_id n abortAt i (pre ++ c :: post)).1
        = preS ++ [("FAILED", "An error occurred: " ++ keyErrorCommand)] := by
  intro pre
  induction pre with
  | nil =>
      intro i _
      refine ⟨?_, ?_, [], ?_⟩ <;>
        simp [exec_steps, hab i, hc, update_mission_status]
  | cons x rest ih =>
      intro i hx
      obtain ⟨name, hname⟩ :=
        Option.isSome_iff_exists.mp (hx x (List.mem_cons_self x rest))
      obtain ⟨ihf, ihr, preS, ihs⟩ :=
        ih (i + 1) (fun y hy => hx y (List.mem_cons_of_mem x hy))
      refine ⟨?_, ?_, ("IN_PROGRESS", execMsg i n name) :: preS, ?_⟩ <;>
        simp [exec_steps, hab i, hname, update_mission_status, ihf, ihr, ihs]

/-- C8 (amended): if executing a command raises an execution error (here:
the KeyError raised by the progress f-string when the command dict has
no command key), the mission is recorded as FAILED with details
containing the underlying error text, the commands forwarded are
exactly those before the failing one, and execute_mission then
re-raises the exception out of the task body to the Celery harness
(which proceeds with subsequent tasks); the engine itself does not
suppress the propagation. -/
theorem command_failure_records_failed_then_reraises (mission_id : String)
    (pre : List MissionCommand) (c : MissionCommand) (post : List MissionCommand)
    (abortAt : Nat → Bool) (hab : ∀ j, abortAt j = false)
    (hpre : ∀ x ∈ pre, (x.command).isSome = true) (hc : c.command = none) :
    (execute_mission (MissionPlan.mk mission_id (pre ++ c :: post)) abortAt).2
      = ExecResult.raised keyErrorCommand ∧
    (∃ preS, storeStatuses
        (execute_mission (MissionPlan.mk mission_id (pre ++ c :: post)) abortAt).1
      = preS ++ [("FAILED", "An error occurred: " ++ keyErrorCommand)]) ∧
    forwarded (execute_mission (MissionPlan.mk mission_id (pre ++ c :: post)) abortAt).1
      = pre := by
  obtain ⟨hf, hr, preS, hs⟩ :=
    exec_steps_raise mission_id (pre ++ c :: post).length abortAt hab c hc post pre 0 hpre
  simp only [List.length_append, List.length_cons] at hf hr hs
  refine ⟨?_, ⟨("IN_PROGRESS", "Starting mission execution.") :: preS, ?_⟩, ?_⟩ <;>
    simp [execute_mission, update_mission_status, hf, hr, hs]

/-- C8 witness: a concrete three-command plan whose middle command dict
lacks the command key, run through the amended theorem. -/
theorem command_failure_records_failed_then_reraises_witness :
    (execute_mission (MissionPlan.mk "m8"
        ([MissionCommand.mk (some "SET_THROTTLE") none]
          ++ MissionCommand.mk none none :: [MissionCommand.mk (some "WAIT") none]))
        (fun _ => false)).2
      = ExecResult.raised keyErrorCommand ∧
    forwarded (execute_mission (MissionPlan.mk "m8"
        ([MissionCommand.mk (some "SET_THROTTLE") none]
          ++ MissionCommand.mk none none :: [MissionCommand.mk (some "WAIT") none]))
        (fun _ => false)).1
      = [MissionCommand.mk (some "SET_THROTTLE") none] := by
  have h := command_failure_records_failed_then_reraises "m8"
    [MissionCommand.mk (some "SET_THROTTLE") none] (MissionCommand.mk none none)
    [MissionCommand.mk (some "WAIT") none] (fun _ => false) (fun _ => rfl)
    (by decide) rfl
  exact ⟨h.1, h.2.2⟩

/-- Checks that every fwd event in a trace is immediately followed by a
sleep event whose duration in milliseconds is the delay_ms value of the
forwarded command, with 1000 as the default when absent — the shallow
form of "time.sleep(cmd.get(delay_ms, 1000) / 1000.0) runs right after
every publish to gnc_commands". -/
def fwdThenSleep : List Ev → Bool
  | [] => true
  | Ev.fwd c :: Ev.sleepMs m :: rest => (m == c.delay_ms.getD 1000) && fwdThenSleep rest
  | Ev.fwd _ :: _ => false
  | _ :: rest => fwdThenSleep rest

theorem fwdThenSleep_exec_steps (mission_id : String) (n : Nat) (abortAt : Nat → Bool) :
    ∀ (cmds : List MissionCommand) (i : Nat) (tl : List Ev),
      fwdThenSleep tl = true →
      fwdThenSleep ((exec_steps mission_id n abortAt i cmds).1 ++ tl) = true := by
  intro cmds
  induction cmds with
  | nil =>
      intro i tl h
      simpa [exec_steps, update_mission_status, fwdThenSleep] using h
  | cons c rest ih =>
      intro i tl h
      cases hab : abortAt i with
      | true => simpa [exec_steps, hab, update_mission_status, fwdThenSleep] using h
      | false =>
          cases hc : c.command with
          | none =>
              simpa [exec_steps, hab, hc, update_mission_status, fwdThenSleep] using h
          | some name =>
              have hrec := ih (i + 1) tl h
              simpa [exec_steps, hab, hc, update_mission_status, fwdThenSleep,
                List.append_assoc] using hrec

/-- C10: in every execution trace, after every command forwarded
downstream — every command of every type, including the last one —
execute_mission suspends for the delay given by the delay_ms field of
the command (modelled in milliseconds; the code divides by 1000.0 to
sleep that many seconds), defaulting to 1000 ms = 1.0 second when
delay_ms is absent, before moving on. -/
theorem forward_always_followed_by_delay_sleep :
    ∀ (p : MissionPlan) (abortAt : Nat → Bool),
      fwdThenSleep (execute_mission p abortAt).1 = true := by
  intro p abortAt
  have h := fwdThenSleep_exec_steps p.mission_id p.flight_plan.length abortAt
    p.flight_plan 0 [Ev.unsub] rfl
  simpa [execute_mission, update_mission_status, fwdThenSleep, List.append_assoc] using h

/-- Outcome of the WAIT_UNTIL_APOAPSIS condition wait: success (first
strictly decreasing reading observed), failure (a stream read raised,
interrupting the wait), or pending (the supplied finite stream ran out
while the values were still non-decreasing — the real loop would keep
polling). -/
inductive WuaOutcome where
  | success
  | failure
  | pending
  deriving DecidableEq, Repr

/-- Modelled from the spec: the Command Dispatcher implementation of
WAIT_UNTIL_APOAPSIS is missing from src — the tests in
src/mission-sequencer/tests (test_wait_until_apoapsis_command) exercise
a MissionSequencer class that src/mission-sequencer/main.py does not
define.  Per section 4.3 of the spec, after the first reading fixed the
previous value: read the next value; if it is strictly less than the
immediately preceding value, unsubscribe from the stream and return
success; otherwise keep the value as the new previous and poll again;
the stream is released exactly once on the success path and on any
failure path that interrupts the wait (a raising read is modelled as
none).  The result triple is (outcome, number of polls performed,
number of unsubscribe calls). -/
def wua_loop (prev : Int) : List (Option Int) → WuaOutcome × Nat × Nat
  | [] => (WuaOutcome.pending, 0, 0)
  | none :: _ => (WuaOutcome.failure, 1, 1)
  | some v :: rest =>
      if v < prev then (WuaOutcome.success, 1, 1)
      else ((wua_loop v rest).1, (wua_loop v rest).2.1 + 1, (wua_loop v rest).2.2)

/-- Modelled from the spec: top level of the WAIT_UNTIL_APOAPSIS wait —
the first poll establishes the initial previous value (it has no
predecessor to compare against), then the loop runs. -/
def wait_until_apoapsis : List (Option Int) → WuaOutcome × Nat × Nat
  | [] => (WuaOutcome.pending, 0, 0)
  | none :: _ => (WuaOutcome.failure, 1, 1)
  | some v :: rest =>
      ((wua_loop v rest).1, (wua_loop v rest).2.1 + 1, (wua_loop v rest).2.2)

theorem wua_loop_climb (y : Int) :
    ∀ (xs : List Int) (prev : Int), List.Chain (· ≤ ·) prev xs →
      y < xs.getLastD prev →
      wua_loop prev ((xs ++ [y]).map some) = (WuaOutcome.success, xs.length + 1, 1) := by
  intro xs
  induction xs with
  | nil =>
      intro prev _ hy
      rw [List.getLastD_nil] at hy
      simp [wua_loop, hy]
  | cons x rest ih =>
      intro prev hchain hy
      rw [List.chain_cons] at hchain
      rw [List.getLastD_cons] at hy
      have hx : ¬ x < prev := not_lt.mpr hchain.1
      have hrec := ih x hchain.2 hy
      simp only [List.map_append, List.map_cons, List.map_nil] at hrec
      simp [wua_loop, hx, hrec]

theorem wua_loop_unsub_once :
    ∀ (s : List (Option Int)) (prev : Int),
      (wua_loop prev s).1 ≠ WuaOutcome.pending → (wua_loop prev s).2.2 = 1 := by
  intro s
  induction s with
  | nil => intro prev h; exact absurd rfl h
  | cons o rest ih =>
      intro prev h
      cases o with
      | none => rfl
      | some v =>
          by_cases hv : v < prev
          · simp [wua_loop, hv]
          · simp only [wua_loop, if_neg hv] at h ⊢
            exact ih v h

/-- C4: first part — over any telemetry stream consisting of a first
reading prev, a non-decreasing run xs, and then a value y strictly less
than the last previous value, the wait returns success after polling
each value exactly once (xs.length + 2 polls) and unsubscribes exactly
once.  Second part — on every completed wait (success or interrupting
failure) the stream is unsubscribed exactly once.  Third part — on the
concrete telemetry sequence [100000, 101000, 102000, 102500, 102400]
the wait polls exactly 5 values, completes successfully after the 5th
(first decreasing) reading, and unsubscribes exactly once. -/
theorem wait_until_apoapsis_first_decrease :
    (∀ (v : Int) (xs : List Int) (y : Int), List.Chain (· ≤ ·) v xs →
       y < xs.getLastD v →
       wait_until_apoapsis (((v :: xs) ++ [y]).map some)
         = (WuaOutcome.success, xs.length + 2, 1)) ∧
    (∀ s : List (Option Int), (wait_until_apoapsis s).1 ≠ WuaOutcome.pending →
       (wait_until_apoapsis s).2.2 = 1) ∧
    wait_until_apoapsis [some 100000, some 101000, some 102000, some 102500, some 102400]
      = (WuaOutcome.success, 5, 1) := by
  refine ⟨?_, ?_, by decide⟩
  · intro v xs y hchain hy
    have h := wua_loop_climb y xs v hchain hy
    simp only [List.map_append, List.map_cons, List.map_nil] at h
    simp only [List.cons_append, List.map_cons, List.map_append, List.map_nil,
      wait_until_apoapsis, h]
  · intro s h
    cases s with
    | nil => exact absurd rfl h
    | cons o rest =>
        cases o with
        | none => rfl
        | some v =>
            simp only [wait_until_apoapsis] at h ⊢
            exact wua_loop_unsub_once rest v h

/-- C4 witness: the theorem applied to the concrete telemetry stream of
the spec scenario, split as first reading 100000, climb
[101000, 102000, 102500], and first decreasing reading 102400. -/
theorem wait_until_apoapsis_first_decrease_witness :
    wait_until_apoapsis ((((100000 : Int) :: [101000, 102000, 102500]) ++ [102400]).map some)
      = (WuaOutcome.success, 5, 1) := by
  have h := wait_until_apoapsis_first_decrease.1 100000 [101000, 102000, 102500] 102400
    (by norm_num [List.chain_cons]) (by decide)
  simpa using h

/-- One blocking-pop outcome observed by the consumer loop: a transient
broker connectivity failure, a pop timeout with no payload (the normal
idle path), or a successfully popped mission plan. -/
inductive PopResult where
  | connError
  | timedOut
  | plan (p : MissionPlan)
  deriving DecidableEq, Repr

/-- Events of the consumer loop. -/
inductive LoopEvent where
  | popFailureLogged
  | retrySleep (ms : Nat)
  | idle
  | processed (mission_id : String)
  deriving DecidableEq, Repr

/-- Length in milliseconds of the short bounded backoff sleep the spec
requires after a transient broker connectivity failure. -/
def RETRY_DELAY_MS : Nat := 5000

/-- Modelled from the spec: the Queue Consumer loop
(MissionSequencer.process_missions) is missing from src — consumption
in src is owned by the Celery harness, and the tests in
src/mission-sequencer/tests/test_network_failures.py exercise a
MissionSequencer class that src/mission-sequencer/main.py does not
define.  Per section 4.1 of the spec the loop is driven by the
successive outcomes of the blocking pop: on a transient broker
connectivity failure it logs the failure, sleeps a short bounded
interval and retries the pop without crashing or exiting; on a timeout
with no payload it continues the loop (the idle path); on a popped plan
it hands the plan to the Mission Runner synchronously and then
continues.  The loop ends when the cooperative stop flag ends the
supplied outcome script. -/
def process_missions : List PopResult → List LoopEvent
  | [] => []
  | PopResult.connError :: rest =>
      LoopEvent.popFailureLogged :: LoopEvent.retrySleep RETRY_DELAY_MS ::
        process_missions rest
  | PopResult.timedOut :: rest => LoopEvent.idle :: process_missions rest
  | PopResult.plan p :: rest =>
      LoopEvent.processed p.mission_id :: process_missions rest

/-- Mission ids handed to the Mission Runner, in order. -/
def processedIds : List LoopEvent → List String :=
  List.filterMap fun e => match e with
    | LoopEvent.processed m => some m
    | _ => none

/-- Mission ids of the plans the queue delivered, in order. -/
def poppedIds : List PopResult → List String :=
  List.filterMap fun e => match e with
    | PopResult.plan p => some p.mission_id
    | _ => none

/-- The one-command plan of test_network_failures.py. -/
def netPlan : MissionPlan :=
  MissionPlan.mk "test-mission-123" [MissionCommand.mk (some "SET_THROTTLE") none]

/-- C9: first part — for every script of pop outcomes, the missions
processed by the consumer loop are exactly the missions the queue
delivered, in order and each exactly once, however many transient
connectivity failures are interleaved; the loop never exits on a
failure, it logs it and sleeps the bounded retry interval.  Second
part — the concrete outage scenario of the spec (a connectivity error
on the first pop, then a successful pop of a valid plan, then an idle
timeout) yields exactly log, bounded retry sleep, one processing of the
mission, idle.  Third part — that mission, run by the worker with no
abort pending, terminates COMPLETED, so the mission enqueued around the
outage is eventually processed exactly once and completes. -/
theorem consumer_loop_processes_each_plan_exactly_once :
    (∀ script : List PopResult,
       processedIds (process_missions script) = poppedIds script) ∧
    process_missions [PopResult.connError, PopResult.plan netPlan, PopResult.timedOut]
      = [LoopEvent.popFailureLogged, LoopEvent.retrySleep RETRY_DELAY_MS,
         LoopEvent.processed "test-mission-123", LoopEvent.idle] ∧
    (execute_mission netPlan (fun _ => false)).2 = ExecResult.completed := by
  refine ⟨?_, rfl, rfl⟩
  intro script
  induction script with
  | nil => rfl
  | cons o rest ih =>
      cases o with
      | connError => simpa [process_missions, processedIds, poppedIds] using ih
      | timedOut => simpa [process_missions, processedIds, poppedIds] using ih
      | plan p => simpa [process_missions, processedIds, poppedIds] using ih
